import Mathlib

/-!
Verification development for `src/main.py` of the Speech <-> Text tool
(PyQt6 speech-recognition / speech-synthesis application).

The file shallowly embeds the audio post-processing helpers
(`speed_change`, `volume_gain_db`), the TTS input validation
(`MainWindow.play_tts`), the recognition callback
(`MainWindow.start_recording`'s `callback`), the VU level meter
(`MainWindow.update_vu_level`), the stream-open behaviour of a capture
session (`start_recording` / `start_vu_meter`), and the bounded history
(`MainWindow.add_history` over `deque(maxlen=10)`), and proves the
specification claims about them.
-/

namespace SpeechTextTool

/-- Python `int(x)` on an exact rational value: truncation toward zero. -/
def pyInt (q : ℚ) : ℤ := if 0 ≤ q then ⌊q⌋ else ⌈q⌉

/-- A pydub `AudioSegment`, reduced to the fields the claims depend on:
the `frame_rate` label and the decoded PCM payload `raw_data`
(sample values are carried but never interpolated; no claim depends on them). -/
structure AudioSegment where
  frame_rate : ℤ
  raw_data : List ℤ
deriving DecidableEq

/-- pydub `AudioSegment.set_frame_rate`:
if the target rate equals the current one, return `self` unchanged;
otherwise, for non-empty data, resample via `audioop.ratecv`, which raises
(`none`) unless both the current and the target rate are positive.
Resampling changes only the `frame_rate` label here: the interpolated
sample values are not modelled, as no claim depends on them. -/
def set_frame_rate (seg : AudioSegment) (frame_rate : ℤ) : Option AudioSegment :=
  if seg.frame_rate = frame_rate then
    some seg
  else if seg.raw_data ≠ [] then
    if 0 < seg.frame_rate ∧ 0 < frame_rate then
      some { seg with frame_rate := frame_rate }
    else
      none
  else
    some { seg with frame_rate := frame_rate }

/-- The intermediate rate of `speed_change`: `new_sr = int(segment.frame_rate * factor)`
(`src/main.py` line 35). -/
def speed_change_new_sr (frame_rate : ℤ) (factor : ℚ) : ℤ :=
  pyInt ((frame_rate : ℚ) * factor)

/-- `speed_change(segment, factor)` (`src/main.py` lines 33–36):
spawn a copy of the raw data relabelled with `new_sr = int(frame_rate * factor)`,
then `set_frame_rate` back to the original rate. -/
def speed_change (segment : AudioSegment) (factor : ℚ) : Option AudioSegment :=
  let new_sr := speed_change_new_sr segment.frame_rate factor
  set_frame_rate { segment with frame_rate := new_sr } segment.frame_rate

/-- `volume_gain_db(volume_factor)` (`src/main.py` lines 39–42):
clamp the linear factor with `max(0.1, min(volume_factor, 2.0))`,
then convert to decibels as `20 * math.log10(...)`. -/
noncomputable def volume_gain_db (volume_factor : ℝ) : ℝ :=
  20 * Real.logb 10 (max 0.1 (min volume_factor 2.0))

/-- The spec's clamp operation, in the spec's words: `clamp(v, lo, hi)`
"restricts v to the interval [lo, hi]". Stated independently of the source's
`max/min` nesting, so that C4 compares source against spec. -/
def clamp_spec (lo hi v : ℝ) : ℝ := min (max v lo) hi

/-- Python `str.strip()` whitespace set (ASCII part: space, tab, LF, CR, VT, FF). -/
def isPyWhitespace (c : Char) : Bool :=
  c = ' ' || c = '\t' || c = '\n' || c = '\r' || c = '\x0b' || c = '\x0c'

/-- Python `str.strip()`: drop whitespace from both ends. -/
def pyStrip (s : List Char) : List Char :=
  ((s.dropWhile isPyWhitespace).reverse.dropWhile isPyWhitespace).reverse

/-- The observable effect of `MainWindow.play_tts` (`src/main.py` lines 307–337):
either the request is rejected with a warning before any worker or service
I/O (`rejected`), or a `TTSWorker` is started with the given parameters
(`started`); only a started worker ever contacts the synthesis service. -/
inductive TTSAction where
  | rejected
  | started (text : List Char) (lang : String) (speed_factor volume_factor : ℚ)
deriving DecidableEq

/-- `MainWindow.play_tts` (`src/main.py` lines 307–337): strip the text;
if the stripped text is empty, show a warning and return (no worker, no
service I/O); otherwise start a `TTSWorker` on the stripped text. -/
def play_tts (tts_text : List Char) (lang : String) (speed_factor volume_factor : ℚ) :
    TTSAction :=
  let text := pyStrip tts_text
  if text = [] then
    TTSAction.rejected
  else
    TTSAction.started text lang speed_factor volume_factor

/-- Result of one `recognize_google` call as seen by the recognition
callback: success, `sr.UnknownValueError`, `sr.RequestError`, or any other
exception with its message. -/
inductive RecognizeResult where
  | ok (text : String)
  | unknownValueError
  | requestError
  | otherError (msg : String)
deriving DecidableEq

/-- The spec's `RecognitionOutcome` tagged variant (§3). -/
inductive RecognitionOutcome where
  | recognized (text : String)
  | inaudible
  | serviceUnavailable
  | failed (msg : String)
deriving DecidableEq

/-- The background-recognition `callback` of `MainWindow.start_recording`
(`src/main.py` lines 279–289). Every branch of the `try/except` is a case
here, so the function is total: no exception escapes the callback. Each
case yields exactly one outcome together with the history line the code
appends in that branch. -/
def callback (lang : String) (result : RecognizeResult) :
    RecognitionOutcome × String :=
  match result with
  | RecognizeResult.ok text =>
      (RecognitionOutcome.recognized text, "STT [" ++ lang ++ "]: " ++ text)
  | RecognizeResult.unknownValueError =>
      (RecognitionOutcome.inaudible, "STT: не вдалося розпізнати фразу")
  | RecognizeResult.requestError =>
      (RecognitionOutcome.serviceUnavailable, "STT: проблема з підключенням до сервісу")
  | RecognizeResult.otherError msg =>
      (RecognitionOutcome.failed msg, "STT помилка: " ++ msg)

/-- Sequential processing of a stream of utterance results by the callback:
each utterance is handled independently, none is skipped. -/
def process_utterances (lang : String) (results : List RecognizeResult) :
    List (RecognitionOutcome × String) :=
  results.map (callback lang)

/-- `audioop.rms(data, 2)`: the square root of the mean of the squared
16-bit samples, truncated to an integer; 0 on an empty fragment. -/
def audioop_rms (samples : List ℤ) : ℕ :=
  if samples = [] then 0
  else Nat.sqrt ((samples.map fun s => s.natAbs * s.natAbs).sum / samples.length)

/-- `MainWindow.update_vu_level` (`src/main.py` lines 478–488), one timer
tick: `none` stands for the cases in which no frame is available (no open
stream, or `stream.read` raised), where the meter is set to 0; otherwise
the level is `min(100, int(rms / 300))` of the 1024-sample frame read. -/
def update_vu_level (frame : Option (List ℤ)) : ℕ :=
  match frame with
  | none => 0
  | some data => min 100 (audioop_rms data / 300)

/-- A full-scale 16-bit square-wave frame of 1024 samples (amplitude 32767,
alternating sign every sample). -/
def full_scale_square_frame : List ℤ :=
  (List.range 1024).map fun i => if i % 2 = 0 then (32767 : ℤ) else -32767

/-- The capture-related state of `MainWindow`, restricted to what decides
how many physical input streams are open on the selected device:
`stt_stop` is truthy while the background listener (which owns its own
microphone stream) is active, `vu_stream` is truthy while the VU meter's
own `pyaudio` stream is open, and `device_opens` counts the physical input
streams currently open on the device. -/
structure SessionState where
  stt_stop : Bool
  vu_stream : Bool
  device_opens : ℕ
deriving DecidableEq

/-- The idle state: no listener, no VU stream, no open device stream. -/
def idle_session : SessionState :=
  { stt_stop := false, vu_stream := false, device_opens := 0 }

/-- `MainWindow.stop_vu_meter` (`src/main.py` lines 461–476): stop the timer,
close the VU stream if one is open, release its `pyaudio` instance. -/
def stop_vu_meter (s : SessionState) : SessionState :=
  { s with
    vu_stream := false
    device_opens := if s.vu_stream then s.device_opens - 1 else s.device_opens }

/-- `MainWindow.start_vu_meter` (`src/main.py` lines 441–459): first
`stop_vu_meter`, then open a dedicated `pyaudio` input stream on the
device for the VU meter — one physical device open. -/
def start_vu_meter (s : SessionState) : SessionState :=
  let s := stop_vu_meter s
  { s with vu_stream := true, device_opens := s.device_opens + 1 }

/-- `MainWindow.start_recording` (`src/main.py` lines 258–291), successful
path with a valid microphone: if a listener is already active
(`self.stt_stop` truthy) return unchanged; otherwise `start_vu_meter`
(which opens the VU meter's own stream) and then
`recognizer.listen_in_background(mic, callback)`, which opens a second,
independent microphone stream on the same device. -/
def start_recording (s : SessionState) : SessionState :=
  if s.stt_stop then s
  else
    let s := start_vu_meter s
    { s with stt_stop := true, device_opens := s.device_opens + 1 }

/-- The history line built by `MainWindow.add_history` (`src/main.py`
line 366): `f"[\x7bstamp\x7d] \x7bentry\x7d"`. -/
def history_line (stamp entry : String) : String :=
  "[" ++ stamp ++ "] " ++ entry

/-- `MainWindow.add_history` (`src/main.py` lines 364–369) acting on the
`deque(maxlen=10)` from line 90, viewed as a list with the newest entry
first: `appendleft` pushes the formatted line at the front and, at
`maxlen`, the deque discards the element at the opposite (right) end —
i.e. the result is the first 10 elements of the extended list. -/
def add_history (history : List String) (stamp entry : String) : List String :=
  (history_line stamp entry :: history).take 10

/-- A whole session of history additions, starting from the empty deque
created in `MainWindow.__init__` (`src/main.py` line 90). -/
def run_history (ops : List (String × String)) : List String :=
  ops.foldl (fun h op => add_history h op.1 op.2) []

/-! ## Theorems -/

theorem set_frame_rate_label {seg out : AudioSegment} {r : ℤ}
    (h : set_frame_rate seg r = some out) : out.frame_rate = r := by
  unfold set_frame_rate at h
  split at h
  · next heq =>
      obtain rfl := Option.some.inj h
      exact heq
  · split at h
    · split at h
      · obtain rfl := Option.some.inj h
        rfl
      · exact absurd h (by simp)
    · obtain rfl := Option.some.inj h
      rfl

/-- C1: for every audio segment and every speed factor accepted by
`speed_change`, the sample-rate label of the returned segment equals the
sample-rate label of the input segment; in particular, applying
`speed_change` with factor `f` and then with factor `1/f` returns the
sample-rate label to its original value. -/
theorem speed_change_rate_label_invariant (seg mid out : AudioSegment) (f : ℚ)
    (h1 : speed_change seg f = some mid) :
    mid.frame_rate = seg.frame_rate ∧
      (speed_change mid (1 / f) = some out → out.frame_rate = seg.frame_rate) := by
  have hmid : mid.frame_rate = seg.frame_rate := by
    simp only [speed_change] at h1
    exact set_frame_rate_label h1
  refine ⟨hmid, fun h2 => ?_⟩
  have hout : out.frame_rate = mid.frame_rate := by
    simp only [speed_change] at h2
    exact set_frame_rate_label h2
  rw [hout, hmid]

theorem speed_change_rate_label_invariant_witness :
    (AudioSegment.mk 44100 [1]).frame_rate = (AudioSegment.mk 44100 [1]).frame_rate ∧
      (speed_change (AudioSegment.mk 44100 [1]) (1 / 2) = some (AudioSegment.mk 44100 [1]) →
        (AudioSegment.mk 44100 [1]).frame_rate = (AudioSegment.mk 44100 [1]).frame_rate) :=
  speed_change_rate_label_invariant (AudioSegment.mk 44100 [1]) (AudioSegment.mk 44100 [1])
    (AudioSegment.mk 44100 [1]) 2
    (by norm_num [speed_change, set_frame_rate, speed_change_new_sr, pyInt])

/-- C2 counterexample: at original rate 10 and factor 0.57 the code's
intermediate rate is `int(5.7) = 5`, while the nearest integer to 5.7 is 6. -/
theorem speed_change_new_sr_ne_round :
    speed_change_new_sr 10 (57 / 100) ≠ round ((10 : ℚ) * (57 / 100)) := by
  have h1 : speed_change_new_sr 10 (57 / 100) = 5 := by
    norm_num [speed_change_new_sr, pyInt]
  have h2 : round ((10 : ℚ) * (57 / 100)) = 6 := by norm_num [round_eq]
  rw [h1, h2]
  decide

/-- C2 (amended): for every nonnegative original rate and nonnegative speed
factor, the intermediate resampling rate computed by `speed_change` equals
`⌊r × s⌋`, the integer part (truncation) of `r × s`, not the nearest
integer. -/
theorem speed_change_new_sr_eq_floor (r : ℤ) (s : ℚ) (hr : 0 ≤ r) (hs : 0 ≤ s) :
    speed_change_new_sr r s = ⌊(r : ℚ) * s⌋ := by
  unfold speed_change_new_sr pyInt
  rw [if_pos (mul_nonneg (by exact_mod_cast hr) hs)]

theorem speed_change_new_sr_eq_floor_witness :
    speed_change_new_sr 10 (57 / 100) = ⌊(10 : ℚ) * (57 / 100)⌋ :=
  speed_change_new_sr_eq_floor 10 (57 / 100) (by norm_num) (by norm_num)

/-- C3 counterexample: the factor `1/100000` is positive, yet on a 44100 Hz
segment with non-empty data the intermediate rate truncates to 0 and the
`set_frame_rate` resampling step fails (`audioop.ratecv` raises on a
non-positive rate): the error branch is reachable and nothing clamps. -/
theorem speed_change_fails_for_small_positive_factor :
    (0 : ℚ) < 1 / 100000 ∧
      speed_change (AudioSegment.mk 44100 [1]) (1 / 100000) = none := by
  constructor
  · norm_num
  · norm_num [speed_change, set_frame_rate, speed_change_new_sr, pyInt]

/-- C3 (amended): for a segment with positive rate, the speed-change step
succeeds for every factor whose truncated intermediate rate
`int(rate × factor)` is at least 1 (in particular for every factor
≥ `1/rate`); positive factors below that make the intermediate rate 0 and
the step fails — the pipeline does not clamp internally. -/
theorem speed_change_succeeds_of_new_sr_pos (seg : AudioSegment) (f : ℚ)
    (hrate : 0 < seg.frame_rate)
    (hsr : 1 ≤ speed_change_new_sr seg.frame_rate f) :
    (speed_change seg f).isSome = true := by
  simp only [speed_change, set_frame_rate]
  split
  · rfl
  · split
    · rw [if_pos ⟨by omega, hrate⟩]
      rfl
    · rfl

theorem speed_change_succeeds_of_new_sr_pos_witness :
    (speed_change (AudioSegment.mk 44100 [1]) 2).isSome = true :=
  speed_change_succeeds_of_new_sr_pos (AudioSegment.mk 44100 [1]) 2
    (by norm_num) (by norm_num [speed_change_new_sr, pyInt])

/-- C4: for every real input `v`, `volume_gain_db v` equals
`20 × log10(clamp(v, 0.1, 2.0))`, where clamp restricts `v` to `[0.1, 2.0]`. -/
theorem volume_gain_db_eq_spec (v : ℝ) :
    volume_gain_db v = 20 * Real.logb 10 (clamp_spec 0.1 2.0 v) := by
  unfold volume_gain_db clamp_spec
  congr 1
  rw [max_min_distrib_left, max_comm (0.1 : ℝ) v]
  congr 1
  norm_num

/-- C5: `volume_gain_db 1 = 0`; `volume_gain_db` is strictly increasing on
`[0.1, 2.0]`; below 0.1 it is constantly `volume_gain_db 0.1` and above 2.0
constantly `volume_gain_db 2.0`. -/
theorem volume_gain_db_properties :
    volume_gain_db 1.0 = 0 ∧
      (∀ x y : ℝ, 0.1 ≤ x → x < y → y ≤ 2.0 → volume_gain_db x < volume_gain_db y) ∧
      (∀ v : ℝ, v < 0.1 → volume_gain_db v = volume_gain_db 0.1) ∧
      (∀ v : ℝ, 2.0 < v → volume_gain_db v = volume_gain_db 2.0) := by
  refine ⟨?_, ?_, ?_, ?_⟩
  · unfold volume_gain_db
    have h : max (0.1 : ℝ) (min 1.0 2.0) = 1 := by norm_num
    rw [h, Real.logb_one, mul_zero]
  · intro x y hx hxy hy
    have hx2 : x ≤ 2.0 := le_of_lt (lt_of_lt_of_le hxy hy)
    have hy1 : (0.1 : ℝ) ≤ y := le_of_lt (lt_of_le_of_lt hx hxy)
    unfold volume_gain_db
    rw [min_eq_left hx2, max_eq_right hx, min_eq_left hy, max_eq_right hy1]
    have hxpos : (0 : ℝ) < x := lt_of_lt_of_le (by norm_num) hx
    exact mul_lt_mul_of_pos_left
      (Real.logb_lt_logb (by norm_num) hxpos hxy) (by norm_num)
  · intro v hv
    unfold volume_gain_db
    have h1 : min v 2.0 = v := min_eq_left (le_of_lt (lt_of_lt_of_le hv (by norm_num)))
    have h2 : max (0.1 : ℝ) v = 0.1 := max_eq_left (le_of_lt hv)
    rw [h1, h2]
    norm_num
  · intro v hv
    unfold volume_gain_db
    have h1 : min v 2.0 = 2.0 := min_eq_right (le_of_lt hv)
    rw [h1]
    norm_num

theorem volume_gain_db_properties_witness :
    volume_gain_db 0.5 < volume_gain_db 1.5 ∧
      volume_gain_db 0.05 = volume_gain_db 0.1 ∧
      volume_gain_db 3.0 = volume_gain_db 2.0 :=
  ⟨volume_gain_db_properties.2.1 0.5 1.5 (by norm_num) (by norm_num) (by norm_num),
    volume_gain_db_properties.2.2.1 0.05 (by norm_num),
    volume_gain_db_properties.2.2.2 3.0 (by norm_num)⟩

theorem all_whitespace_pyStrip_nil (t : List Char)
    (h : ∀ c ∈ t, isPyWhitespace c = true) : pyStrip t = [] := by
  unfold pyStrip
  rw [List.dropWhile_eq_nil_iff.mpr h]
  simp

/-- C6: for every request whose text is empty or whitespace-only after
stripping, `play_tts` rejects the request before starting a worker, so the
synthesis service is never contacted. -/
theorem play_tts_rejects_blank_text (t : List Char) (lang : String)
    (speed_factor volume_factor : ℚ)
    (h : ∀ c ∈ t, isPyWhitespace c = true) :
    play_tts t lang speed_factor volume_factor = TTSAction.rejected := by
  simp only [play_tts]
  rw [all_whitespace_pyStrip_nil t h]
  simp

theorem play_tts_rejects_blank_text_witness :
    play_tts [' ', '\t', '\n'] "uk" 1 1 = TTSAction.rejected :=
  play_tts_rejects_blank_text [' ', '\t', '\n'] "uk" 1 1 (by decide)

/-- C7: the recognition callback yields exactly one outcome per utterance
(processing a stream of results yields one outcome each, independently),
mapping no-speech to `inaudible`, service failure to `serviceUnavailable`,
any other failure to `failed` with its message, and success to
`recognized`; being total, it never propagates an exception, so one
utterance's failure never halts processing of subsequent utterances. -/
theorem callback_single_outcome_per_utterance (lang m t : String)
    (results : List RecognizeResult) :
    (process_utterances lang results).length = results.length ∧
      (∀ i : ℕ, (process_utterances lang results)[i]? =
        Option.map (callback lang) results[i]?) ∧
      (callback lang RecognizeResult.unknownValueError).1 = RecognitionOutcome.inaudible ∧
      (callback lang RecognizeResult.requestError).1 = RecognitionOutcome.serviceUnavailable ∧
      (callback lang (RecognizeResult.otherError m)).1 = RecognitionOutcome.failed m ∧
      (callback lang (RecognizeResult.ok t)).1 = RecognitionOutcome.recognized t := by
  refine ⟨List.length_map _ _, fun i => ?_, rfl, rfl, rfl, rfl⟩
  simp [process_utterances]

theorem audioop_rms_zero_frame : audioop_rms (List.replicate 1024 0) = 0 := by
  unfold audioop_rms
  rw [if_neg (by simp), List.map_replicate]
  norm_num [List.sum_replicate]

theorem full_scale_square_frame_rms : audioop_rms full_scale_square_frame = 32767 := by
  have hmap : full_scale_square_frame.map (fun s => s.natAbs * s.natAbs) =
      List.replicate 1024 (32767 * 32767) := by
    unfold full_scale_square_frame
    rw [List.map_map]
    apply List.eq_replicate_iff.mpr
    refine ⟨by simp, ?_⟩
    intro b hb
    obtain ⟨i, _, rfl⟩ := List.mem_map.mp hb
    by_cases h : i % 2 = 0 <;> simp [h, Function.comp]
  have hlen : full_scale_square_frame.length = 1024 := by
    simp [full_scale_square_frame]
  have hne : full_scale_square_frame ≠ [] := by
    intro hnil
    rw [hnil] at hlen
    simp at hlen
  unfold audioop_rms
  rw [if_neg hne, hmap, hlen, List.sum_replicate, smul_eq_mul,
    Nat.mul_div_cancel_left _ (by norm_num)]
  exact Nat.sqrt_eq 32767

/-- C8: every level-meter sample lies in `[0, 100]` (levels are naturals,
capped at 100); an all-zero 1024-sample frame maps to level 0; a
full-scale 16-bit square-wave frame saturates to level 100; and when no
frame is available (stream absent, stalled, or read error) the meter
reports 0 rather than failing. -/
theorem update_vu_level_range_and_cases :
    (∀ frame, update_vu_level frame ≤ 100) ∧
      update_vu_level (some (List.replicate 1024 0)) = 0 ∧
      update_vu_level (some full_scale_square_frame) = 100 ∧
      update_vu_level none = 0 := by
  refine ⟨?_, ?_, ?_, rfl⟩
  · intro frame
    cases frame with
    | none => exact Nat.zero_le _
    | some data => exact min_le_left _ _
  · show min 100 (audioop_rms (List.replicate 1024 0) / 300) = 0
    rw [audioop_rms_zero_frame]
    decide
  · show min 100 (audioop_rms full_scale_square_frame / 300) = 100
    rw [full_scale_square_frame_rms]
    decide

/-- C9 counterexample: starting a capture session from the idle state opens
two physical input streams on the selected device — one owned by the VU
meter (`start_vu_meter`) and one owned by the background recognizer
(`listen_in_background`) — not exactly one shared stream. -/
theorem start_recording_opens_two_streams :
    (start_recording idle_session).device_opens = 2 ∧
      (start_recording idle_session).device_opens ≠ 1 := by
  decide

/-- C9 (amended): for every state with no active listener and no open VU
stream, `start_recording` activates both consumers and opens two physical
input streams on the device (one per consumer), rather than fanning one
stream out to both. -/
theorem start_recording_two_streams_general (s : SessionState)
    (hstt : s.stt_stop = false) (hvu : s.vu_stream = false) :
    (start_recording s).device_opens = s.device_opens + 2 ∧
      (start_recording s).stt_stop = true ∧
      (start_recording s).vu_stream = true := by
  refine ⟨?_, ?_, ?_⟩ <;>
    simp [start_recording, start_vu_meter, stop_vu_meter, hstt, hvu]

theorem start_recording_two_streams_general_witness :
    (start_recording idle_session).device_opens = idle_session.device_opens + 2 ∧
      (start_recording idle_session).stt_stop = true ∧
      (start_recording idle_session).vu_stream = true :=
  start_recording_two_streams_general idle_session rfl rfl

theorem add_history_length_le (h : List String) (stamp entry : String) :
    (add_history h stamp entry).length ≤ 10 := by
  simp [add_history]

theorem foldl_add_history (ops : List (String × String)) :
    ∀ h : List String, h.length ≤ 10 →
      ops.foldl (fun acc op => add_history acc op.1 op.2) h =
        ((ops.map fun op => history_line op.1 op.2).reverse ++ h).take 10 := by
  induction ops with
  | nil =>
      intro h hh
      simp [List.take_of_length_le hh]
  | cons a ops ih =>
      intro h hh
      simp only [List.foldl_cons, List.map_cons, List.reverse_cons, List.append_assoc,
        List.singleton_append]
      rw [ih (add_history h a.1 a.2) (add_history_length_le h a.1 a.2)]
      simp only [add_history]
      rw [List.take_append_eq_append_take, List.take_append_eq_append_take, List.take_take]
      congr 1
      congr 1
      exact Nat.min_eq_left (Nat.sub_le _ _)

/-- C10: after every sequence of history additions the history holds at
most 10 entries, and is exactly the 10 most recent formatted lines,
newest first; each new entry is placed at the front, and adding an entry
to a full (10-element) history evicts the oldest (last) entry. -/
theorem history_bounded_newest_first (ops : List (String × String))
    (h : List String) (stamp entry : String) :
    (run_history ops).length ≤ 10 ∧
      run_history ops = ((ops.map fun op => history_line op.1 op.2).reverse).take 10 ∧
      (add_history h stamp entry).head? = some (history_line stamp entry) ∧
      (h.length = 10 → add_history h stamp entry = history_line stamp entry :: h.dropLast) := by
  have hrun : run_history ops =
      ((ops.map fun op => history_line op.1 op.2).reverse).take 10 := by
    unfold run_history
    rw [foldl_add_history ops [] (by simp)]
    simp
  refine ⟨?_, hrun, rfl, ?_⟩
  · rw [hrun]
    simp [List.length_take]
  · intro hlen
    simp only [add_history]
    rw [show (10 : ℕ) = 9 + 1 from rfl, List.take_succ_cons]
    rw [List.dropLast_eq_take, hlen]

theorem history_bounded_newest_first_witness :
    add_history ["0", "1", "2", "3", "4", "5", "6", "7", "8", "9"] "s" "e" =
      history_line "s" "e" ::
        (["0", "1", "2", "3", "4", "5", "6", "7", "8", "9"] : List String).dropLast :=
  (history_bounded_newest_first []
    ["0", "1", "2", "3", "4", "5", "6", "7", "8", "9"] "s" "e").2.2.2 (by decide)

end SpeechTextTool
